import Mathlib

/-
  Shallow embedding of the control logic of
  src/Pumps/pumpControl.legoControl/arduino/DCPumpController/DCPumpControllerNumPad.ino
  (DC pump controller firmware).

  Machine integers are modelled as Int or Nat with an explicit mod 256
  where the source stores into a byte; C floats are modelled as rationals;
  a float stored into a C int is truncated toward zero.  Buffer accesses
  that the source performs without a bounds check are modelled through
  Option, with none marking an access outside the declared array.  The
  serial command handling, lines 244-427 of the sketch, is kept inside a
  block comment in the shipped file; it is embedded here from its text at
  the lines the claims cite.
-/

/-- Number of motor shields, line 68 of the sketch. -/
def nShields : ℕ := 1

/-- Motors per shield, line 70 of the sketch. -/
def nMotorsPerShield : ℕ := 2

/-- Maximum serial message length, line 100 of the sketch. -/
def maxMessageLength : ℕ := 9

/-- One motor channel: motorStatus with indices i j 0 is the commanded
    speed, indices i j 1 the run state (0 stop, 1 forward, 2 backward),
    per the comments at lines 109-114. -/
structure Chan where
  speed : ℤ
  state : ℤ
deriving DecidableEq

/-- The scheduler-visible firmware state: the two channels of shield 0
    together with the run-timer globals startTime, targetTime and
    timeCounter declared at lines 101-105. -/
structure PumpState where
  m0 : Chan
  m1 : Chan
  startTime : ℕ
  targetTime : ℕ
  timeCounter : Bool
deriving DecidableEq

/-- One pass of the auto-stop check at the top of loop, lines 202-223:
    when timeCounter is set and now minus startTime has reached targetTime,
    every channel gets run state 0 and its motor is released; the stored
    speeds are not touched; elapsedTime and targetTime are zeroed and
    timeCounter is cleared. -/
def tick (now : ℕ) (s : PumpState) : PumpState :=
  if s.timeCounter = true then
    if s.targetTime ≤ now - s.startTime then
      { s with m0 := { s.m0 with state := 0 }, m1 := { s.m1 with state := 0 },
               targetTime := 0, timeCounter := false }
    else s
  else s

/-- The stop-all command, lines 286-303: every channel gets speed 255 and
    state 0, the motors are released, elapsedTime is zeroed and timeCounter
    cleared (targetTime is not cleared there). -/
def stopAll (s : PumpState) : PumpState :=
  { s with m0 := { speed := 255, state := 0 }, m1 := { speed := 255, state := 0 },
           timeCounter := false }

/-- The single-pump stop command, lines 306-323: the addressed channel gets
    state 0 and its motor is released; the stored speed is untouched;
    timeCounter is cleared. -/
def stopOne (motorIdx : ℕ) (s : PumpState) : PumpState :=
  let s1 := if motorIdx = 0 then { s with m0 := { s.m0 with state := 0 } }
            else { s with m1 := { s.m1 with state := 0 } }
  { s1 with timeCounter := false }

/-- The set-speed command, lines 334-344: the addressed channel gets the
    given speed. -/
def setSpeedCmd (motorIdx : ℕ) (sp : ℤ) (s : PumpState) : PumpState :=
  if motorIdx = 0 then { s with m0 := { s.m0 with speed := sp } }
  else { s with m1 := { s.m1 with speed := sp } }

/-- The start command, lines 368-410: targetTime becomes seconds times
    1000, the addressed channel gets the direction digit as its state, and
    when that digit is 1 or 2 the motor is run and startTime and
    timeCounter are set. -/
def startCmd (motorIdx : ℕ) (dir : ℤ) (durSec : ℕ) (now : ℕ) (s : PumpState) : PumpState :=
  let s1 := { s with targetTime := durSec * 1000 }
  let s2 := if motorIdx = 0 then { s1 with m0 := { s1.m0 with state := dir } }
            else { s1 with m1 := { s1.m1 with state := dir } }
  if dir = 1 ∨ dir = 2 then { s2 with startTime := now, timeCounter := true } else s2

/-- Result of interpreting one serial command line: either a new state
    plus the reply text, or an attempted access to the motor arrays at an
    index outside their declared bounds (which the embedding cannot
    perform as a state update). -/
inductive CmdResult where
  | ok (s : PumpState) (reply : String)
  | oobAccess (shield motorIdx : ℕ)
deriving DecidableEq

/-- True exactly for the ok constructor. -/
def isOkReply : CmdResult → Bool
  | CmdResult.ok _ _ => true
  | CmdResult.oobAccess _ _ => false

/-- C char arithmetic: the character value minus the value of the zero
    digit. -/
def digitVal (c : Char) : ℤ := (c.toNat : ℤ) - 48

/-- Storage of an int expression into a C byte: reduction mod 256. -/
def byteOf (n : ℤ) : ℕ := (n % 256).toNat

/-- The characters rerouted to the keypad handler, line 362. -/
def isKeyChar (c : Char) : Bool :=
  c = '1' || c = '2' || c = '3' || c = '4' || c = '5' || c = '6' ||
  c = '7' || c = '8' || c = '9' || c = '*' || c = 'A' || c = 'B' ||
  c = 'C' || c = 'D'

/-- atol applied to the five captured duration characters, line 370:
    leading decimal digits are parsed, parsing stops at the first
    non-digit. -/
def atol5 (cs : List Char) : ℕ :=
  (cs.takeWhile Char.isDigit).foldl (fun acc c => acc * 10 + (c.toNat - 48)) 0

/-- The status reply assembled by the g command, lines 268-283. -/
def statusReply (s : PumpState) : String :=
  "S1M1:" ++ toString s.m0.speed ++ "," ++ toString s.m0.state ++ ";" ++
  "S1M2:" ++ toString s.m1.speed ++ "," ++ toString s.m1.state ++ ";"

/-- The serial command dispatch, lines 268-426.  Address bytes are
    computed as in the source: the character minus the zero digit minus
    one, stored into a byte (mod 256); no field is validated before use,
    so an out-of-range address reaches the motor arrays directly and is
    reported here as oobAccess with the wrapped indices.  Bytes beyond the
    received message are whatever the buffer held; they are modelled as a
    fixed junk byte. -/
def interpretCmd (msg : List Char) (now : ℕ) (s : PumpState) : CmdResult :=
  let len := msg.length
  let c0 := msg.getD 0 ' '
  if c0 = 'g' then CmdResult.ok s (statusReply s)
  else if c0 = 'a' ∧ len = 1 then CmdResult.ok (stopAll s) "Stopped all pumps!"
  else if c0 = 'a' ∧ len ≠ 1 then
    let sh := byteOf (digitVal (msg.getD 1 ' ') - 1)
    let mo := byteOf (digitVal (msg.getD 2 ' ') - 1)
    if sh < nShields ∧ mo < nMotorsPerShield then
      CmdResult.ok (stopOne mo s)
        ("Stopped pump: " ++ toString (msg.getD 1 ' ') ++ "," ++ toString (msg.getD 2 ' ') ++ "!")
    else CmdResult.oobAccess sh mo
  else if c0 = 'p' then CmdResult.ok s "1.2"
  else if c0 = 's' then
    let sh := byteOf (digitVal (msg.getD 1 ' ') - 1)
    let mo := byteOf (digitVal (msg.getD 2 ' ') - 1)
    let a := byteOf (digitVal (msg.getD 3 ' '))
    let b := byteOf (digitVal (msg.getD 4 ' '))
    let c := byteOf (digitVal (msg.getD 5 ' '))
    let sp := byteOf ((a : ℤ) * 100 + (b : ℤ) * 10 + (c : ℤ))
    if sh < nShields ∧ mo < nMotorsPerShield then
      CmdResult.ok (setSpeedCmd mo (sp : ℤ) s)
        ("Set speed of pump: " ++ toString (msg.getD 1 ' ') ++ "," ++ toString (msg.getD 2 ' ') ++
          " to " ++ toString sp)
    else CmdResult.oobAccess sh mo
  else if isKeyChar c0 then CmdResult.ok s ""
  else if c0 = 'r' ∧ len = maxMessageLength then
    let sh := byteOf (digitVal (msg.getD 1 ' ') - 1)
    let mo := byteOf (digitVal (msg.getD 2 ' ') - 1)
    let dir := digitVal (msg.getD 3 ' ')
    let dur := atol5 [msg.getD 4 ' ', msg.getD 5 ' ', msg.getD 6 ' ', msg.getD 7 ' ', msg.getD 8 ' ']
    if sh < nShields ∧ mo < nMotorsPerShield then
      CmdResult.ok (startCmd mo dir dur now s)
        (if dir = 1 then
          "Started pump: " ++ toString (msg.getD 1 ' ') ++ "," ++ toString (msg.getD 2 ' ') ++
            " in the forward direction."
         else if dir = 2 then
          "Started pump: " ++ toString (msg.getD 1 ' ') ++ "," ++ toString (msg.getD 2 ' ') ++
            " in the backward direction."
         else "")
    else CmdResult.oobAccess sh mo
  else CmdResult.ok s ""

/-- The defaults written by setup for floatVar: rate 37.00, diameter
    14.50, scale 1.00, lines 162-164. -/
def floatVarDefaults : ℚ × ℚ × ℚ := (37, 29 / 2, 1)

/-- The floatVar load-and-init logic in setup, lines 159-166: the record
    is fetched from the store and the defaults are written back exactly
    when the fetched leading value is nonzero (the comparison in the
    source is floatVar index 0 against NULL, which is 0).  The Bool
    records whether the store was overwritten. -/
def setupLoadFloatVar (stored : ℚ × ℚ × ℚ) : (ℚ × ℚ × ℚ) × Bool :=
  if stored.1 ≠ 0 then (floatVarDefaults, true) else (stored, false)

/-- The defaults for flowStatus: unit 0 (percent), direction 0, motor 0,
    lines 179-181. -/
def flowStatusDefaults : ℤ × ℤ × ℤ := (0, 0, 0)

/-- The flowStatus load-and-init logic in setup, lines 176-183: same
    nonzero test on the leading element. -/
def setupLoadFlowStatus (stored : ℤ × ℤ × ℤ) : (ℤ × ℤ × ℤ) × Bool :=
  if stored.1 ≠ 0 then (flowStatusDefaults, true) else (stored, false)

/-- The volFloat load-and-init logic in setup, lines 185-189: a nonzero
    stored volume is reset to 0 and written back. -/
def setupLoadVolFloat (stored : ℤ) : ℤ × Bool :=
  if stored ≠ 0 then (0, true) else (stored, false)

/-- EEPROM.put stores the record exactly as given (lines 680-682). -/
def saveFloatVar (c : ℚ × ℚ × ℚ) : ℚ × ℚ × ℚ := c

/-- C semantics of the chained comparison a > t > b as written in the
    range table of Units2Pct: the left comparison yields int 0 or 1,
    which is then compared with b. -/
def chainGT (a t b : ℚ) : Bool := decide ((if a > t then (1 : ℚ) else 0) > b)

/-- Storage of a float expression into a C int: truncation toward zero
    (the ceiling for negative values, the floor otherwise). -/
def floatToInt (q : ℚ) : ℤ := if q < 0 then ⌈q⌉ else ⌊q⌋

/-- Output of Units2Pct: the motor duty value and gear ratio placed in the
    returned pair (lines 857-860), plus the value floatVar index 0 holds
    after the call (the over-range branch overwrites it, line 762). -/
structure GearSel where
  motorVal : ℤ
  gearRatio : ℤ
  newRate : ℚ
deriving DecidableEq

/-- Units2Pct, lines 686-861.  fv0 is floatVar index 0 (the rate as
    entered), fv2 is floatVar index 2 (the diameter scale).  The unit
    conversion and every guard and formula are transcribed literally,
    including the chained comparisons, the guards of gears 7 to 10 whose
    left bound multiplies fv0 instead of fv2, and the misplaced
    parentheses in the gear 8 and gear 10 formulas.  When no branch fires,
    motorVal and gearRatio keep their initial value 0. -/
def Units2Pct (unitVal : ℤ) (fv0 fv2 : ℚ) : GearSel :=
  let t : ℚ :=
    if unitVal = 1 then fv0 * (6 / 100)
    else if unitVal = 2 then fv0 * (1 / 1000)
    else fv0
  if chainGT (37 * fv2) t (16 * fv2) then
    ⟨floatToInt (((t - (92849 / 10000) * fv2) / ((27855 / 1000) * fv2)) * 100), 1, fv0⟩
  else if chainGT (16 * fv2) t (9 * fv2) then
    ⟨floatToInt (((t - (41078 / 10000) * fv2) / ((12323 / 1000) * fv2)) * 100), 2, fv0⟩
  else if chainGT (9 * fv2) t (3 * fv2) then
    ⟨floatToInt (((t - (24206 / 10000) * fv2) / ((72617 / 10000) * fv2)) * 100), 3, fv0⟩
  else if chainGT (3 * fv2) t (2 * fv2) then
    ⟨floatToInt (((t - (8456 / 10000) * fv2) / ((25367 / 10000) * fv2)) * 100), 4, fv0⟩
  else if chainGT (2 * fv2) t ((6 / 10) * fv2) then
    ⟨floatToInt (((t - (5366 / 10000) * fv2) / ((16099 / 10000) * fv2)) * 100), 5, fv0⟩
  else if chainGT ((6 / 10) * fv2) t ((3 / 10) * fv2) then
    ⟨floatToInt (((t - (1704 / 10000) * fv2) / ((5112 / 10000) * fv2)) * 100), 6, fv0⟩
  else if chainGT ((3 / 10) * fv0) t ((1 / 10) * fv2) then
    ⟨floatToInt (((t - (956 / 10000) * fv2) / ((2867 / 10000) * fv2)) * 100), 7, fv0⟩
  else if chainGT ((1 / 10) * fv0) t ((8 / 100) * fv2) then
    ⟨floatToInt ((t - ((331 / 10000) * fv2) / ((992 / 10000) * fv2)) * 100), 8, fv0⟩
  else if chainGT ((8 / 100) * fv0) t ((25 / 1000) * fv2) then
    ⟨floatToInt (((t - (21 / 1000) * fv2) / ((629 / 10000) * fv2)) * 100), 9, fv0⟩
  else if chainGT ((25 / 1000) * fv0) t ((6 / 1000) * fv2) then
    ⟨floatToInt ((t - ((66 / 10000) * fv2) / ((199 / 10000) * fv2)) * 100), 10, fv0⟩
  else if t > 37 * fv2 then ⟨255, -1, (27855 / 1000) * fv2⟩
  else if t < (66 / 10000) * fv2 then ⟨64, -2, fv0⟩
  else ⟨0, 0, fv0⟩

/-- setTargetTime, lines 1156-1171.  volFloat is divided by 100 with C
    int division before conversion to float; for a non-percent unit the
    volume is scaled to microliters and, for the per-second unit, the
    rate basis is rescaled; the final line computes targetTime
    unconditionally for every unit, the percent unit included. -/
def setTargetTime (flowUnit : ℤ) (volFloat : ℤ) (rate : ℚ) : ℚ :=
  let tempVal : ℚ := ((Int.tdiv volFloat 100 : ℤ) : ℚ)
  let tempVal :=
    if flowUnit ≠ 0 then
      let tv := tempVal * 1000
      if flowUnit = 1 then tv / 60 else tv
    else tempVal
  (tempVal / rate) * 60000

/-- Transient state of the decimal value editor: the character buffer (its
    length is the declared width of the array passed to LCDinput), the
    recorded decimal-point index, the printInt counter and the cursor
    position, the variables passed by pointer at lines 982-995. -/
structure EditState where
  buf : List Char
  decimalPos : ℤ
  printInt : ℤ
  cursorPos : ℤ
deriving DecidableEq

/-- Read of the buffer at a C index: none when the index falls outside
    the declared width. -/
def lGet (l : List Char) (i : ℤ) : Option Char :=
  if h : 0 ≤ i ∧ i.toNat < l.length then some (l.get ⟨i.toNat, h.2⟩) else none

/-- Write of the buffer at a C index: none when the index falls outside
    the declared width. -/
def lSet (l : List Char) (i : ℤ) (c : Char) : Option (List Char) :=
  if 0 ≤ i ∧ i.toNat < l.length then some (l.set i.toNat c) else none

/-- The index sequence of a C for loop running from a up to but excluding
    b. -/
def rangeList (a b : ℤ) : List ℤ :=
  (List.range (b - a).toNat).map (fun k => a + (k : ℤ))

/-- The shift at lines 1027-1029: for each i from decimalPos up to
    cursorPos exclusive, the buffer at i receives the buffer at
    decimalPos + i. -/
def shiftLoop1 (dp : ℤ) : List ℤ → List Char → Option (List Char)
  | [], l => some l
  | i :: is, l =>
    (lGet l (dp + i)).bind fun c => (lSet l i c).bind fun l2 => shiftLoop1 dp is l2

/-- The shift at lines 1036-1040: for each i from decimalPos up to arrLen
    inclusive, the buffer at i receives the buffer at i + 1. -/
def shiftLoop2 : List ℤ → List Char → Option (List Char)
  | [], l => some l
  | i :: is, l =>
    (lGet l (i + 1)).bind fun c => (lSet l i c).bind fun l2 => shiftLoop2 is l2

/-- The shift at lines 1051-1053: for each i from 0 up to arrLen - 1
    exclusive, the buffer at arrLen - i + 1 receives the buffer at
    arrLen - i. -/
def shiftLoop3 (arrLen : ℤ) : List ℤ → List Char → Option (List Char)
  | [], l => some l
  | i :: is, l =>
    (lGet l (arrLen - i)).bind fun c =>
    (lSet l (arrLen - i + 1) c).bind fun l2 => shiftLoop3 arrLen is l2

/-- arrLen as computed at line 998: sizeof of a char pointer parameter
    divided by sizeof char, which is 2 on the 8-bit AVR target, whatever
    the width of the array the pointer refers to. -/
def cArrLen : ℤ := 2

/-- LCDinput, lines 982-1099, one key event of the decimal value editor.
    B and C move the cursor with wraparound over printInt; a digit is
    written at the cursor (with automatic insertion of a decimal point at
    the significant-figure boundary and the replaced-decimal bookkeeping
    of lines 1067-1091); the star key moves the decimal point using the
    three shift loops.  Every buffer access goes through lGet and lSet,
    so the result is none exactly when the source would touch the array
    outside its declared width. -/
def LCDinput (keypressed : Char) (sigFig : ℤ) (s : EditState) : Option EditState :=
  if keypressed = 'B' then
    let c := s.cursorPos + 1
    some { s with cursorPos := if c > s.printInt then 0 else c }
  else if keypressed = 'C' then
    let c := s.cursorPos - 1
    some { s with cursorPos := if c < 0 then s.printInt else c }
  else if keypressed.isDigit || keypressed = '*' then
    if keypressed = '*' then
      if s.cursorPos = 0 then some s
      else if s.decimalPos < s.cursorPos then
        (shiftLoop1 s.decimalPos (rangeList s.decimalPos s.cursorPos) s.buf).bind fun l1 =>
        (lSet l1 s.cursorPos '.').bind fun l2 =>
        some { s with buf := l2, decimalPos := s.cursorPos }
      else if s.decimalPos > s.cursorPos then
        (shiftLoop2 (rangeList s.decimalPos (cArrLen + 1)) s.buf).bind fun l1 =>
        (lSet l1 s.cursorPos '.').bind fun l2 =>
        let s2 := { s with buf := l2, decimalPos := s.cursorPos }
        if s2.cursorPos = 0 then
          (shiftLoop3 cArrLen (rangeList 0 (cArrLen - 1)) s2.buf).bind fun l3 =>
          (lSet l3 1 '.').bind fun l4 =>
          (lSet l4 0 (Char.ofNat 0)).bind fun l5 =>
          some { s2 with buf := l5 }
        else some s2
      else some s
    else
      let s1 : Option EditState :=
        if s.cursorPos ≥ sigFig ∧ (s.cursorPos = s.decimalPos ∨ s.decimalPos = -1) then
          (lSet s.buf s.cursorPos '.').map fun l =>
            { s with buf := l, cursorPos := s.cursorPos + 1, decimalPos := sigFig }
        else some s
      s1.bind fun s2 =>
      (lSet s2.buf s2.cursorPos keypressed).bind fun l =>
      let s3 := { s2 with buf := l }
      let s4 : Option EditState :=
        if s3.decimalPos = s3.cursorPos ∧ s3.cursorPos = sigFig - 1 then
          (lSet s3.buf sigFig '.').map fun l2 => { s3 with buf := l2, decimalPos := sigFig }
        else if s3.decimalPos = s3.cursorPos then some { s3 with decimalPos := -1 }
        else some s3
      s4.map fun s5 =>
        if (s5.cursorPos > 1 ∧ (s5.decimalPos = 0 ∨ s5.decimalPos = sigFig)) ∨ s5.cursorPos > 2 then
          { s5 with cursorPos := 0, printInt := 3 }
        else { s5 with cursorPos := s5.cursorPos + 1 }
  else some s

/-- Bounds check against the declared dimensions of
    motorStatus, declared at line 119 with extents nShields,
    nMotorsPerShield and 1. -/
def motorStatusAccessOK (i j k : ℕ) : Bool :=
  decide (i < nShields) && decide (j < nMotorsPerShield) && decide (k < 1)

/-- Bounds check against flowStatus, declared at line 120 with 2
    elements. -/
def flowStatusAccessOK (i : ℕ) : Bool := decide (i < 2)

/-- Bounds check against floatVar, declared at line 121 with 2
    elements. -/
def floatVarAccessOK (i : ℕ) : Bool := decide (i < 2)

/-- The floatVar indices written by the setup defaults, lines 162-164. -/
def setupFloatVarWrites : List ℕ := [0, 1, 2]

/-- The flowStatus indices written by the setup defaults, lines 179-181. -/
def setupFlowStatusWrites : List ℕ := [0, 1, 2]

/-- C assignment used in condition position, as on line 1124: the value
    is stored and the condition takes the stored value, nonzero meaning
    true. -/
def cAssignCond (newVal : ℤ) : ℤ × Bool := (newVal, decide (newVal ≠ 0))

/-- The flow unit after the Set Volume screen opens: line 1124 reads
    if (flowStatus[0] = 0), an assignment, so whatever the unit was
    before, it is 0 afterwards. -/
def setVolumeOpenUnit (_before : ℤ) : ℤ := (cAssignCond 0).1

/-- A concrete pre-start state: both channels stopped, speeds 200 and
    150, no timer running. -/
def pumpInit200 : PumpState := ⟨⟨200, 0⟩, ⟨150, 0⟩, 0, 0, false⟩

/-- The C3 scenario state: channel of board 1, motor 1 started forward
    for 5 seconds at time 0. -/
def c3run : PumpState := startCmd 0 1 5 0 pumpInit200

/-- A concrete running state with an expired-by-6000 timer used by the
    C4 witness. -/
def c4state : PumpState := ⟨⟨200, 1⟩, ⟨150, 2⟩, 0, 5000, true⟩

/-- A concrete idle state used by the C6 counterexample. -/
def c6state : PumpState := ⟨⟨10, 0⟩, ⟨20, 1⟩, 0, 0, false⟩

/-- A concrete Set Volume editing state: buffer 0.00 of width 4, decimal
    point recorded at index 1, printInt 4 (the initial VolInt of line
    1106), cursor at position 4 after four presses of the cursor-right
    key. -/
def c8state : EditState := { buf := ['0', '.', '0', '0'], decimalPos := 1, printInt := 4, cursorPos := 4 }

/-- A tick strictly before the target leaves the state unchanged. -/
theorem tick_before_target (t : ℕ) (s : PumpState) (h1 : s.timeCounter = true)
    (h2 : t - s.startTime < s.targetTime) : tick t s = s := by
  unfold tick
  rw [if_pos h1, if_neg (Nat.not_le.mpr h2)]

/-- Claim C1 (code_bug evidence): with unit ml per minute, scale 1 and
    rate 10, the normalized rate lies inside the calibrated gear-2 range
    from 9 to 16, yet the classification of Units2Pct fires no range
    branch and no saturation branch: gearRatio and motorVal keep their
    initial value 0.  The chained guards compare a 0-or-1 boolean with
    the lower bound, so the value maps to zero ranges, refuting the
    exactly-one property. -/
theorem c1_range_classification_gap :
    ((9 : ℚ) * 1 ≤ 10 ∧ (10 : ℚ) < 16 * 1) ∧
    (Units2Pct 3 10 1).gearRatio = 0 ∧ (Units2Pct 3 10 1).motorVal = 0 := by
  norm_num [Units2Pct, chainGT, floatToInt]

/-- Claim C2 (code_bug evidence): a store that was initialized with the
    record rate 5.00, diameter 14.50, scale 1.00 (and flowStatus unit 2,
    volume 150) is overwritten with the defaults at the next startup,
    because setup rewrites the defaults exactly when the stored leading
    value is nonzero; the load therefore does not return the saved
    record. -/
theorem c2_initialized_store_overwritten :
    (setupLoadFloatVar (saveFloatVar (5, 29 / 2, 1))).1 = floatVarDefaults ∧
    ((5 : ℚ), (29 / 2 : ℚ), (1 : ℚ)) ≠ floatVarDefaults ∧
    (setupLoadFloatVar (saveFloatVar (5, 29 / 2, 1))).2 = true ∧
    (setupLoadFlowStatus (2, 1, 0)).1 = flowStatusDefaults ∧
    ((2 : ℤ), (1 : ℤ), (0 : ℤ)) ≠ flowStatusDefaults ∧
    setupLoadVolFloat 150 = (0, true) := by
  refine ⟨?_, ?_, ?_, by decide, by decide, by decide⟩ <;>
    norm_num [setupLoadFloatVar, saveFloatVar, floatVarDefaults]

/-- Claim C3 counterexample: in the scenario of the claim (channel of
    board 1 motor 1 started forward for 5 seconds at time 0 with stored
    speed 200), the tick at time 5000 stops the channel but its commanded
    duty is 200, not 0. -/
theorem c3_duty_not_cleared : ¬ (tick 5000 c3run).m0.speed = 0 := by decide

/-- Claim C3 as amended: the tick at 4999 leaves the channel forward,
    the tick at 5000 stops it exactly once and clears the timer while the
    commanded duty value stays at 200 (the motor is released, the duty is
    not set to 0), and no tick strictly before 5000 stops the channel. -/
theorem c3_scenario_amended :
    c3run.m0.state = 1 ∧
    (tick 4999 c3run).m0.state = 1 ∧
    (tick 5000 c3run).m0.state = 0 ∧
    (tick 5000 c3run).timeCounter = false ∧
    (tick 5000 c3run).m0.speed = 200 ∧
    tick 5001 (tick 5000 c3run) = tick 5000 c3run ∧
    ∀ t : ℕ, t < 5000 → (tick t c3run).m0.state = 1 := by
  refine ⟨by decide, by decide, by decide, by decide, by decide, by decide, ?_⟩
  intro t ht
  have h2 : t - c3run.startTime < c3run.targetTime := by
    show t - 0 < 5000
    simpa using ht
  rw [tick_before_target t c3run rfl h2]
  decide

/-- Witness for claim C3: the amended theorem applied at the concrete
    tick time 1234. -/
theorem c3_scenario_amended_witness : (tick 1234 c3run).m0.state = 1 :=
  c3_scenario_amended.2.2.2.2.2.2 1234 (by decide)

/-- Claim C4 counterexample: the stop-all path stops the channel (state
    0) but sets its commanded duty to 255, not 0. -/
theorem c4_stopall_duty_255 :
    (stopAll c4state).m0.state = 0 ∧ (stopAll c4state).m0.speed = 255 ∧
    ¬ (stopAll c4state).m0.speed = 0 := by decide

/-- Claim C4 as amended: every stop path sets the run state to Stopped
    immediately, but none clears the commanded duty: stop-all sets every
    duty to 255, while the single stop and the auto-stop path leave the
    duty unchanged. -/
theorem c4_stop_paths_amended (s : PumpState) (now : ℕ)
    (h1 : s.timeCounter = true) (h2 : s.targetTime ≤ now - s.startTime) :
    (stopAll s).m0.state = 0 ∧ (stopAll s).m0.speed = 255 ∧
    (stopAll s).m1.state = 0 ∧ (stopAll s).m1.speed = 255 ∧
    (stopOne 0 s).m0.state = 0 ∧ (stopOne 0 s).m0.speed = s.m0.speed ∧
    (stopOne 1 s).m1.state = 0 ∧ (stopOne 1 s).m1.speed = s.m1.speed ∧
    (tick now s).m0.state = 0 ∧ (tick now s).m0.speed = s.m0.speed ∧
    (tick now s).m1.state = 0 := by
  have htick : tick now s =
      { s with m0 := { s.m0 with state := 0 }, m1 := { s.m1 with state := 0 },
               targetTime := 0, timeCounter := false } := by
    unfold tick
    rw [if_pos h1, if_pos h2]
  refine ⟨rfl, rfl, rfl, rfl, rfl, rfl, rfl, rfl, ?_, ?_, ?_⟩
  · rw [htick]
  · rw [htick]
  · rw [htick]

/-- Witness for claim C4: the amended theorem applied to the concrete
    running state c4state with an expired timer at time 6000. -/
theorem c4_stop_paths_amended_witness :
    (stopAll c4state).m0.speed = 255 ∧ (tick 6000 c4state).m0.state = 0 :=
  ⟨(c4_stop_paths_amended c4state 6000 rfl (by decide)).2.1,
   (c4_stop_paths_amended c4state 6000 rfl (by decide)).2.2.2.2.2.2.2.2.1⟩

/-- Claim C5 (code_bug evidence): a normalized rate of 0.001 ml per
    minute with scale 1 lies below the bottom calibrated bound 0.0066,
    yet Units2Pct routes it to the shadowing gear-5 branch with a
    negative duty of -33 instead of the slow floor 64 with the slowest
    marker; and the rate 700 in the microliter-per-second unit
    normalizes to 42, above the top bound 37, yet is routed to the
    gear-7 branch with duty 14616 instead of 255 with the fastest
    marker. -/
theorem c5_saturation_misrouted :
    ((1 : ℚ) / 1000 < (66 / 10000) * 1 ∧
      (Units2Pct 3 (1 / 1000) 1).gearRatio = 5 ∧ (Units2Pct 3 (1 / 1000) 1).motorVal = -33) ∧
    ((700 : ℚ) * (6 / 100) > 37 * 1 ∧
      (Units2Pct 1 700 1).gearRatio = 7 ∧ (Units2Pct 1 700 1).motorVal = 14616) := by
  constructor
  · norm_num [Units2Pct, chainGT, floatToInt, Int.ceil_neg]
  · norm_num [Units2Pct, chainGT, floatToInt]

/-- Claim C6 counterexample: the malformed stop command a00, whose board
    and motor address 0,0 is outside the configured range, is not
    answered with an error reply and unchanged state: its address bytes
    wrap to 255 and the command reaches the motor arrays out of their
    declared bounds. -/
theorem c6_oob_address_processed :
    interpretCmd ['a', '0', '0'] 0 c6state = CmdResult.oobAccess 255 255 ∧
    isOkReply (interpretCmd ['a', '0', '0'] 0 c6state) = false := by decide

/-- Claim C6 as amended: a line whose leading character matches no
    command yields an empty reply and no state change, but commands with
    a recognized leading character are not validated: an out-of-range
    address such as a00 is processed, its address bytes wrapping to 255
    and indexing the motor arrays out of bounds instead of producing an
    error reply. -/
theorem c6_dispatch_amended (s : PumpState) :
    interpretCmd ['z'] 0 s = CmdResult.ok s "" ∧
    interpretCmd ['a', '0', '0'] 0 s = CmdResult.oobAccess 255 255 ∧
    isOkReply (interpretCmd ['a', '0', '0'] 0 s) = false :=
  ⟨rfl, rfl, rfl⟩

/-- Claim C7 (code_bug evidence): with the percent unit selected
    (flowStatus 0 equal 0), a stored volume of 100 hundredths and a rate
    of 37 percent, setTargetTime silently computes the nonzero duration
    60000 divided by 37 milliseconds; there is no error path. -/
theorem c7_percent_duration_computed :
    setTargetTime 0 100 37 = 60000 / 37 ∧ ¬ setTargetTime 0 100 37 = 0 := by
  norm_num [setTargetTime]

/-- Claim C8 (code_bug evidence): from the Set Volume editing state with
    buffer 0.00 of width 4 and decimal index 1, one cursor-right key
    moves the cursor from 3 to 4, and the decimal-point key then runs the
    shift loop of lines 1027-1029, which reads buffer index 4, outside
    the width-4 bounds, so LCDinput returns none. -/
theorem c8_decimal_shift_oob :
    LCDinput 'B' 2 { c8state with cursorPos := 3 } = some c8state ∧
    LCDinput '*' 2 c8state = none ∧
    lGet c8state.buf 4 = none := by decide

/-- Claim C9 (code_bug evidence): the run-state access with third index
    1 (auto-stop loop, line 214), the Set Rate write-back with shield
    index 1 (line 673), and the setup default writes to flowStatus index
    2 and floatVar index 2 (lines 181 and 164) all fall outside the
    declared array bounds, while the intended in-range accesses pass the
    same check. -/
theorem c9_declared_bounds_exceeded :
    motorStatusAccessOK 0 0 1 = false ∧
    motorStatusAccessOK 1 0 0 = false ∧
    setupFlowStatusWrites.all flowStatusAccessOK = false ∧
    setupFloatVarWrites.all floatVarAccessOK = false ∧
    motorStatusAccessOK 0 0 0 = true ∧ motorStatusAccessOK 0 1 0 = true ∧
    flowStatusAccessOK 1 = true := by decide

/-- Claim C10 (code_bug evidence): opening the Set Volume screen with
    the flow unit set to 2 leaves the unit at 0, because the condition
    on line 1124 is an assignment of 0, not a comparison; the stored
    value 0 also makes the branch evaluate false. -/
theorem c10_setvolume_clobbers_unit :
    setVolumeOpenUnit 2 = 0 ∧ ¬ setVolumeOpenUnit 2 = 2 ∧ (cAssignCond 0).2 = false := by decide
